import Mathlib

/-!
Verification development for `ocr_web_native_application`
(src/main.py and src/messages.py): a browser-extension native-messaging
host that stores OCR-indexed screenshots in a content-addressed entry
store with per-entry bloom filters, answers keyword queries, and persists
the store as a JSON snapshot.

The Python source is shallowly embedded: JSON values are an inductive
`Json`, the message codec of `messages.py` is `from_bytes`, the session
loop of `main.py` is `step` / `runListener`, and persistence is
`save_hash_to_entry` / `loadStore` / `startup`. External collaborators
(base64, SHA3-256, the OCR pipeline, UTF-8 encoding, the stopword list)
are fields of an `Externals` record, and the external `pyutils.bloom_filter`
capability is modelled from the spec (see `BloomFilter`).
-/

/-- JSON values, as produced by Python's `json.loads`: objects are ordered
association lists with (for real `json.loads` output) unique keys. -/
inductive Json where
  | null
  | bool (b : Bool)
  | num (n : Int)
  | str (s : String)
  | arr (elements : List Json)
  | obj (fields : List (String × Json))

/-- Python exceptions that `RequestMessage.from_bytes` in `messages.py` can
raise: `json.loads` failure, `dict.pop` on a missing key, `.pop` on a
non-dict value, a dataclass call with wrong/missing keyword arguments, and
the explicit `ValueError` for an unsupported `type` value. -/
inductive PyError where
  | jsonDecodeError
  | keyError (k : String)
  | attributeError
  | typeError
  | valueError (typeValue : Json)

/-- The dataclass instance `from_bytes` constructs. Python dataclasses do
not validate field value types, so the fields hold raw `Json` values. -/
inductive WireRequest where
  | add (request_id base64_img_data url title timestamp_ms : Json)
  | query (request_id query : Json)

/-- Python `dict.pop(k)`: the value at `k` and the dict without `k`, or
`none` when `k` is absent. -/
def popField (k : String) : List (String × Json) → Option (Json × List (String × Json))
  | [] => none
  | (k', v) :: rest =>
    if k' = k then some (v, rest)
    else
      match popField k rest with
      | none => none
      | some (v', rest') => some (v', (k', v) :: rest')

/-- Calling a dataclass constructor with `**fields`: succeeds (with the
values in declaration order) iff the keys of `fields` are exactly `ks`;
a missing or unexpected keyword argument is a `TypeError` (`none`). -/
def takeKwargs : List String → List (String × Json) → Option (List Json)
  | [], [] => some []
  | [], _ :: _ => none
  | k :: ks, fields =>
    match popField k fields with
    | none => none
    | some (v, rest) =>
      match takeKwargs ks rest with
      | none => none
      | some vs => some (v :: vs)

/-- `RequestMessage.from_bytes` of `messages.py`, composed with the
external `json.loads` (whose outcome is the `Option Json` argument:
`none` is a parse failure). Pops the `type` discriminator and dispatches
to `AddRequestMessage(**d)` or `QueryRequestMessage(**d)`; any failure is
the corresponding uncaught Python exception. -/
def from_bytes (parsed : Option Json) : Except PyError WireRequest :=
  match parsed with
  | none => .error .jsonDecodeError
  | some (.obj fields) =>
    match popField "type" fields with
    | none => .error (.keyError "type")
    | some (tv, rest) =>
      match tv with
      | .str s =>
        if s = "add" then
          match takeKwargs ["request_id", "base64_img_data", "url", "title", "timestamp_ms"] rest with
          | some [rid, b64, u, t, ts] => .ok (.add rid b64 u t ts)
          | _ => .error .typeError
        else if s = "query" then
          match takeKwargs ["request_id", "query"] rest with
          | some [rid, q] => .ok (.query rid q)
          | _ => .error .typeError
        else .error (.valueError (.str s))
      | other => .error (.valueError other)
  | some _ => .error .attributeError

/-- `AddRequestMessage` of `messages.py`, with its declared field types. -/
structure AddRequestMessage where
  request_id : Int
  base64_img_data : String
  url : String
  title : String
  timestamp_ms : Int
deriving DecidableEq

/-- `QueryRequestMessage` of `messages.py`, with its declared field types. -/
structure QueryRequestMessage where
  request_id : Int
  query : String
deriving DecidableEq

/-- The closed set of typed requests the session loop dispatches on. -/
inductive RequestMessage where
  | add (m : AddRequestMessage)
  | query (m : QueryRequestMessage)
deriving DecidableEq

/-- A wire-level request whose field values have the types the dataclass
declarations state (and that the handlers consume). Python checks none of
this at construction; a value of another type would surface only at its
use site inside the handler, which this model reports as a `TypeError`
at dispatch. -/
def toTyped : WireRequest → Option RequestMessage
  | .add (.num rid) (.str b64) (.str u) (.str t) (.num ts) =>
    some (.add ⟨rid, b64, u, t, ts⟩)
  | .query (.num rid) (.str q) => some (.query ⟨rid, q⟩)
  | _ => none

/-- `QueryResponseEntry` of `messages.py`. -/
structure QueryResponseEntry where
  screenshot_src : String
  url : String
  title : String
  timestamp_ms : Int
deriving DecidableEq

/-- `QueryResponseMessage` of `messages.py` (field order: the inherited
`request_id`, then `entries`). -/
structure QueryResponseMessage where
  request_id : Int
  entries : List QueryResponseEntry
deriving DecidableEq

/-- `dataclasses.asdict` on a `QueryResponseEntry`, as serialized by
`json.dumps` in `run_listener`: keys in dataclass field order. -/
def encodeQueryResponseEntry (e : QueryResponseEntry) : Json :=
  .obj [("screenshot_src", .str e.screenshot_src), ("url", .str e.url),
        ("title", .str e.title), ("timestamp_ms", .num e.timestamp_ms)]

/-- `dataclasses.asdict` on a `QueryResponseMessage`, as serialized by
`json.dumps` in `run_listener`. -/
def encodeQueryResponse (m : QueryResponseMessage) : Json :=
  .obj [("request_id", .num m.request_id),
        ("entries", .arr (m.entries.map encodeQueryResponseEntry))]

/-- Injective byte serialization of a token list, used to model the external
filter's export: each token's bytes shifted by one, then a `0` terminator.
For tokens whose bytes are below 255 (UTF-8 text never uses byte 255) the
output bytes stay below 256. -/
def encodeTokens (tokens : List (List Nat)) : List Nat :=
  tokens.flatMap (fun t => t.map (fun b => b + 1) ++ [0])

/-- Accumulating reader for `decodeTokens`: bytes before each `0` terminator
form one token (shifted back down by one). -/
def decodeTokensAux : List Nat → List Nat → List (List Nat)
  | [], _ => []
  | 0 :: rest, acc => acc.reverse :: decodeTokensAux rest []
  | Nat.succ b :: rest, acc => decodeTokensAux rest (b :: acc)

/-- Inverse of `encodeTokens`. -/
def decodeTokens (data : List Nat) : List (List Nat) :=
  decodeTokensAux data []

/-- Modelled from the spec: the external Bloom Index capability of
`pyutils.bloom_filter` (absent from src/), per its §4.4 contract — a
probabilistic token set with `build`/`contains`/`exportBytes`/`importBytes`,
no false negatives, bounded false positives, lossless byte round-trip.
This model is the exact-set instance of that contract (zero false
positives, which the contract permits): it holds the inserted tokens
(byte strings) themselves. -/
structure BloomFilter where
  tokens : List (List Nat)
deriving DecidableEq

/-- Modelled from the spec: `BloomFilter.from_values_2(values, capacity_proportion)`
builds the filter from the inserted values; the sizing parameter is an
implementation detail of the external capability (§4.4) and does not
affect the membership contract, so it is not part of the model. -/
def BloomFilter.from_values_2 (values : List (List Nat)) : BloomFilter :=
  ⟨values⟩

/-- Modelled from the spec: membership test (`token in filter`); never
false for an inserted token. -/
def BloomFilter.contains_token (bf : BloomFilter) (t : List Nat) : Bool :=
  bf.tokens.contains t

/-- Modelled from the spec: `export_bytes`, the lossless byte
serialization used for persistence. -/
def BloomFilter.export_bytes (bf : BloomFilter) : List Nat :=
  encodeTokens bf.tokens

/-- Modelled from the spec: `BloomFilter.import_bytes`, inverse of
`export_bytes`. -/
def BloomFilter.import_bytes (data : List Nat) : BloomFilter :=
  ⟨decodeTokens data⟩

/-- Lowercase hex digit of a value below 16, as Python's `bytes.hex` emits. -/
def hexDigitChar (n : Nat) : Char :=
  if n = 0 then '0' else if n = 1 then '1' else if n = 2 then '2'
  else if n = 3 then '3' else if n = 4 then '4' else if n = 5 then '5'
  else if n = 6 then '6' else if n = 7 then '7' else if n = 8 then '8'
  else if n = 9 then '9' else if n = 10 then 'a' else if n = 11 then 'b'
  else if n = 12 then 'c' else if n = 13 then 'd' else if n = 14 then 'e'
  else 'f'

/-- Value of a lowercase hex digit (junk characters read as 0; unreachable
for strings produced by `hexEncode`). -/
def hexCharVal (c : Char) : Nat :=
  if c = '0' then 0 else if c = '1' then 1 else if c = '2' then 2
  else if c = '3' then 3 else if c = '4' then 4 else if c = '5' then 5
  else if c = '6' then 6 else if c = '7' then 7 else if c = '8' then 8
  else if c = '9' then 9 else if c = 'a' then 10 else if c = 'b' then 11
  else if c = 'c' then 12 else if c = 'd' then 13 else if c = 'e' then 14
  else 15

/-- Python `bytes.hex()`: two lowercase hex characters per byte. -/
def hexEncode (bs : List Nat) : String :=
  ⟨bs.flatMap (fun b => [hexDigitChar (b / 16), hexDigitChar (b % 16)])⟩

/-- Reader for `hexDecode`: consumes characters two at a time. -/
def hexDecodeList : List Char → List Nat
  | c1 :: c2 :: rest => (16 * hexCharVal c1 + hexCharVal c2) :: hexDecodeList rest
  | _ => []

/-- Python `bytes.fromhex` on well-formed lowercase input. -/
def hexDecode (s : String) : List Nat :=
  hexDecodeList s.toList

/-- The screenshots directory constant of `main.py`. -/
def SCREENSHOTS_DIRECTORY : String := "screenshots"

/-- The image host constant of `main.py`. -/
def IMG_HOST : String := "http://localhost:4545"

/-- `Entry` of `main.py`: one indexed screenshot. `hash_value` is the
SHA3-256 digest of the raw image bytes. -/
structure Entry where
  url : String
  title : String
  timestamp_ms : Int
  hash_value : List Nat
  bloom_filter : BloomFilter
deriving DecidableEq

/-- The file name of `Entry.image_path`: `f'{timestamp_ms}_{hash.hex()}.png'`. -/
def Entry.image_path_name (e : Entry) : String :=
  toString e.timestamp_ms ++ "_" ++ hexEncode e.hash_value ++ ".png"

/-- The full relative path of `Entry.image_path`. -/
def Entry.image_path (e : Entry) : String :=
  SCREENSHOTS_DIRECTORY ++ "/" ++ e.image_path_name

/-- The external collaborators `run_listener` calls, out of scope per §1:
base64 decoding, the SHA3-256 digest, the OCR pipeline
(`pytesseract.image_to_string` over the decoded image), UTF-8 string
encoding, and the stopword list read at startup. -/
structure Externals where
  b64decode : String → List Nat
  sha3_256 : List Nat → List Nat
  image_to_string : List Nat → String
  str_encode : String → List Nat
  english_stop_words : List String

/-- Python `str.split()` with no argument: split on whitespace runs,
dropping empty pieces. -/
def splitWordsAux : List Char → List Char → List String
  | [], acc => if acc.isEmpty then [] else [⟨acc.reverse⟩]
  | c :: cs, acc =>
    if c.isWhitespace then
      if acc.isEmpty then splitWordsAux cs []
      else (⟨acc.reverse⟩ : String) :: splitWordsAux cs []
    else splitWordsAux cs (c :: acc)

/-- Python `text.split()`. -/
def splitWords (s : String) : List String :=
  splitWordsAux s.toList []

/-- Python `str.lower()` (ASCII-faithful). -/
def lowerString (s : String) : String :=
  ⟨s.toList.map Char.toLower⟩

/-- The tokenization both handlers share:
`set(word.lower() for word in text.split())` — split on whitespace,
lowercase, deduplicate as a set. No stopword filtering here. -/
def queryTokens (text : String) : List String :=
  ((splitWords text).map lowerString).dedup

/-- The Add-side token set: `queryTokens` minus the stopword set
(`set(...) - english_stop_words` in `run_listener`). -/
def addTokens (ext : Externals) (text : String) : List String :=
  (queryTokens text).filter (fun w => !(ext.english_stop_words.contains w))

/-- The Add branch of `run_listener` in `main.py`. The store is the
insertion-ordered `hash_to_entry` dict, held as a list of entries whose
dict key is their `hash_value` field. Returns the new store and the
screenshot files written (`entry.image_path.write_bytes(image_data)`). -/
def handleAdd (ext : Externals) (hash_to_entry : List Entry) (m : AddRequestMessage) :
    List Entry × List (String × List Nat) :=
  let image_data := ext.b64decode m.base64_img_data
  let image_hash := ext.sha3_256 image_data
  if hash_to_entry.any (fun e => e.hash_value == image_hash) then
    (hash_to_entry, [])
  else
    let encoded_words := (addTokens ext (ext.image_to_string image_data)).map ext.str_encode
    if encoded_words.isEmpty then
      (hash_to_entry, [])
    else
      let entry : Entry :=
        { url := m.url, title := m.title, timestamp_ms := m.timestamp_ms,
          hash_value := image_hash,
          bloom_filter := BloomFilter.from_values_2 encoded_words }
      (hash_to_entry ++ [entry], [(entry.image_path, image_data)])

/-- The response record built for a matching entry in the Query branch. -/
def queryResponseEntryOf (entry : Entry) : QueryResponseEntry :=
  { screenshot_src := IMG_HOST ++ "/" ++ entry.image_path_name,
    url := entry.url, title := entry.title, timestamp_ms := entry.timestamp_ms }

/-- The Query branch of `run_listener`: the written `QueryResponseMessage`.
The entries comprehension is
`[... for entry in hash_to_entry.values() for query_word in set(query.lower().split...) if query_word.encode() in entry.bloom_filter]`. -/
def handleQuery (ext : Externals) (hash_to_entry : List Entry) (m : QueryRequestMessage) :
    QueryResponseMessage :=
  { request_id := m.request_id,
    entries :=
      hash_to_entry.flatMap (fun entry =>
        (queryTokens m.query).filterMap (fun query_word =>
          if entry.bloom_filter.contains_token (ext.str_encode query_word) then
            some (queryResponseEntryOf entry)
          else none)) }

/-- The observable effects of one loop iteration of `run_listener`. -/
structure StepResult where
  store : List Entry
  files_written : List (String × List Nat)
  responses : List QueryResponseMessage
deriving DecidableEq

/-- One iteration of the dispatch in `run_listener`, on an
already-decoded, well-typed request. -/
def step (ext : Externals) (s : List Entry) : RequestMessage → StepResult
  | .add m =>
    let p := handleAdd ext s m
    { store := p.1, files_written := p.2, responses := [] }
  | .query m =>
    { store := s, files_written := [], responses := [handleQuery ext s m] }

/-- The (entry, matching query token) pairs the Query comprehension
ranges over: for each store entry, each deduplicated query token its
filter contains. -/
def matchedPairs (ext : Externals) (s : List Entry) (q : String) : List (Entry × String) :=
  s.flatMap (fun entry =>
    ((queryTokens q).filter (fun w => entry.bloom_filter.contains_token (ext.str_encode w))).map
      (fun w => (entry, w)))

/-- The whole `run_listener` loop of `main.py` over a sequence of frames
(each frame the `json.loads` outcome of one message): decode with
`from_bytes`, dispatch, accumulate written responses. The loop body has
no exception handler, so a frame whose decode raises propagates the
exception out of the loop at once (`.error`), dropping all later frames. -/
def runListener (ext : Externals) (s : List Entry) :
    List (Option Json) → Except PyError (List Entry × List Json)
  | [] => .ok (s, [])
  | f :: rest =>
    match from_bytes f with
    | .error e => .error e
    | .ok w =>
      match toTyped w with
      | none => .error .typeError
      | some msg =>
        let r := step ext s msg
        match runListener ext r.store rest with
        | .error e => .error e
        | .ok (s', outs) => .ok (s', r.responses.map encodeQueryResponse ++ outs)

/-- One element of the snapshot JSON array: `dataclasses.asdict(entry)`
with `custom_serializer` applied — `bytes` and the bloom filter rendered
as hex strings, other fields verbatim, keys in dataclass field order. -/
structure JsonEntry where
  url : String
  title : String
  timestamp_ms : Int
  hash_value : String
  bloom_filter : String
deriving DecidableEq

/-- `save_hash_to_entry` of `main.py`: the snapshot document
`json_dumps(list(hash_to_entry.values()), default=custom_serializer)`,
as the list of serialized entries. -/
def save_hash_to_entry (hash_to_entry : List Entry) : List JsonEntry :=
  hash_to_entry.map (fun e =>
    { url := e.url, title := e.title, timestamp_ms := e.timestamp_ms,
      hash_value := hexEncode e.hash_value,
      bloom_filter := hexEncode e.bloom_filter.export_bytes })

/-- One entry of the dict comprehension in `main`: the loaded `Entry`
(the dict key is `bytes.fromhex(json_entry['hash_value'])`, equal to the
entry's own `hash_value` field). -/
def loadEntry (j : JsonEntry) : Entry :=
  { url := j.url, title := j.title, timestamp_ms := j.timestamp_ms,
    hash_value := hexDecode j.hash_value,
    bloom_filter := BloomFilter.import_bytes (hexDecode j.bloom_filter) }

/-- Python dict insertion keyed by `hash_value`: a duplicate key replaces
the value in place, a fresh key appends. -/
def dictInsert : List Entry → Entry → List Entry
  | [], e => [e]
  | x :: xs, e =>
    if x.hash_value == e.hash_value then e :: xs else x :: dictInsert xs e

/-- The dict comprehension in `main` that rebuilds `hash_to_entry` from a
parsed snapshot array. -/
def loadStore (js : List JsonEntry) : List Entry :=
  js.foldl (fun acc j => dictInsert acc (loadEntry j)) []

/-- Log levels of the `logging` calls the model tracks. -/
inductive LogLevel where
  | debug
  | info
  | warning
  | error
deriving DecidableEq

/-- The startup of `main()` in `main.py`: deserialize the snapshot inside
`try/except OSError`. The argument is the outcome of reading and JSON-parsing
the snapshot file: `.error msg` is an `OSError` (missing/unreadable file),
caught and logged as a warning, leaving the store empty. -/
def startup (readResult : Except String (List JsonEntry)) : List Entry × List LogLevel :=
  match readResult with
  | .error _ => ([], [.warning])
  | .ok js => (loadStore js, [])

/-- `main()` up to and including the session loop: build the initial store
from the snapshot read outcome, then run the listener on the frame
sequence. -/
def mainRun (ext : Externals) (readResult : Except String (List JsonEntry))
    (frames : List (Option Json)) :
    Except PyError (List Entry × List Json) × List LogLevel :=
  let p := startup readResult
  (runListener ext p.1 frames, p.2)

/-- Dict membership `image_hash in hash_to_entry` as the `any` scan over
the entry list, phrased as membership in the key image. -/
theorem any_hash_eq (s : List Entry) (h : List Nat) :
    (s.any (fun e => e.hash_value == h) = true) ↔ h ∈ s.map Entry.hash_value := by
  simp only [List.any_eq_true, beq_iff_eq, List.mem_map]

/-- A guarded `filterMap` is a `filter` followed by a `map`. -/
theorem filterMap_guard {α β : Type} (l : List α) (c : α → Bool) (f : α → β) :
    l.filterMap (fun w => if c w then some (f w) else none) = (l.filter c).map f := by
  induction l with
  | nil => rfl
  | cons hd tl ih =>
    by_cases hc : c hd = true <;> simp [List.filterMap_cons, List.filter_cons, hc, ih]

/-- The Query comprehension enumerates exactly the matched (entry, token)
pairs, one response record per pair. -/
theorem handleQuery_eq_matchedPairs (ext : Externals) (s : List Entry)
    (m : QueryRequestMessage) :
    (handleQuery ext s m).entries =
      (matchedPairs ext s m.query).map (fun p => queryResponseEntryOf p.1) := by
  simp only [handleQuery, matchedPairs, List.map_flatMap, List.map_map]
  refine List.flatMap_congr ?_
  intro entry _
  rw [filterMap_guard]
  rfl

/-- Hex digits decode back to their value. -/
theorem hexCharVal_hexDigitChar (n : Nat) (h : n < 16) :
    hexCharVal (hexDigitChar n) = n := by
  interval_cases n <;> rfl

/-- Two-character hex decoding inverts byte-wise hex encoding. -/
theorem hexDecodeList_encode (bs : List Nat) (h : ∀ b ∈ bs, b < 256) :
    hexDecodeList (bs.flatMap (fun b => [hexDigitChar (b / 16), hexDigitChar (b % 16)])) = bs := by
  induction bs with
  | nil => rfl
  | cons b tl ih =>
    have hb : b < 256 := h b (by simp)
    have hdiv : b / 16 < 16 := Nat.div_lt_of_lt_mul (by omega)
    have hmod : b % 16 < 16 := Nat.mod_lt _ (by omega)
    have hstep : (b :: tl).flatMap (fun x => [hexDigitChar (x / 16), hexDigitChar (x % 16)]) =
        hexDigitChar (b / 16) :: hexDigitChar (b % 16) ::
          tl.flatMap (fun x => [hexDigitChar (x / 16), hexDigitChar (x % 16)]) := rfl
    rw [hstep]
    simp only [hexDecodeList]
    rw [hexCharVal_hexDigitChar _ hdiv, hexCharVal_hexDigitChar _ hmod,
      ih (fun x hx => h x (by simp [hx]))]
    congr 1
    omega

/-- `bytes.fromhex` inverts `bytes.hex` on genuine byte sequences. -/
theorem hexDecode_hexEncode (bs : List Nat) (h : ∀ b ∈ bs, b < 256) :
    hexDecode (hexEncode bs) = bs :=
  hexDecodeList_encode bs h

/-- Reading one encoded token from the byte stream. -/
theorem decodeTokensAux_encode (t : List Nat) (rest : List Nat) (acc : List Nat) :
    decodeTokensAux (t.map (fun b => b + 1) ++ [0] ++ rest) acc =
      (acc.reverse ++ t) :: decodeTokensAux rest [] := by
  induction t generalizing acc with
  | nil => simp [decodeTokensAux]
  | cons b tl ih =>
    have hstep : (b :: tl).map (fun x => x + 1) ++ [0] ++ rest =
        (b + 1) :: (tl.map (fun x => x + 1) ++ [0] ++ rest) := rfl
    rw [hstep]
    show decodeTokensAux (tl.map (fun x => x + 1) ++ [0] ++ rest) (b :: acc) =
      (acc.reverse ++ b :: tl) :: decodeTokensAux rest []
    rw [ih (b :: acc)]
    simp

/-- The token codec round-trips. -/
theorem decodeTokens_encodeTokens (tks : List (List Nat)) :
    decodeTokens (encodeTokens tks) = tks := by
  induction tks with
  | nil => rfl
  | cons t tl ih =>
    have : encodeTokens (t :: tl) = t.map (fun b => b + 1) ++ [0] ++ encodeTokens tl := by
      simp [encodeTokens]
    rw [decodeTokens, this, decodeTokensAux_encode]
    simpa [decodeTokens] using congrArg (List.cons t) ih

/-- Inserting a fresh key into the dict appends. -/
theorem dictInsert_fresh (acc : List Entry) (e : Entry)
    (h : e.hash_value ∉ acc.map Entry.hash_value) :
    dictInsert acc e = acc ++ [e] := by
  induction acc with
  | nil => rfl
  | cons x xs ih =>
    have hx : x.hash_value ≠ e.hash_value := by
      intro hcontra
      exact h (by simp [hcontra])
    simp only [dictInsert, beq_iff_eq, if_neg hx, List.cons_append]
    rw [ih (fun hm => h (by simp [List.mem_map] at hm ⊢; exact Or.inr hm))]

/-- Folding dict insertion over entries with pairwise-fresh keys is
concatenation. -/
theorem foldl_dictInsert (l acc : List Entry)
    (h : ((acc ++ l).map Entry.hash_value).Nodup) :
    l.foldl (fun a e => dictInsert a e) acc = acc ++ l := by
  induction l generalizing acc with
  | nil => simp
  | cons e tl ih =>
    have hfresh : e.hash_value ∉ acc.map Entry.hash_value := by
      intro hmem
      rw [List.map_append, List.nodup_append] at h
      exact h.2.2 hmem (by simp)
    simp only [List.foldl_cons, dictInsert_fresh acc e hfresh]
    rw [ih (acc ++ [e]) (by simpa using h)]
    simp

/-- An entry whose byte fields are genuine bytes: hash bytes below 256 and
filter token bytes below 255 (UTF-8 output never contains byte 255), so
that every serialized byte fits in two hex digits. -/
def validEntry (e : Entry) : Prop :=
  (∀ b ∈ e.hash_value, b < 256) ∧ ∀ t ∈ e.bloom_filter.tokens, ∀ b ∈ t, b < 255

instance (e : Entry) : Decidable (validEntry e) := by
  unfold validEntry
  infer_instance

/-- Exported filter bytes of a valid entry are genuine bytes. -/
theorem export_bytes_lt (bf : BloomFilter) (h : ∀ t ∈ bf.tokens, ∀ b ∈ t, b < 255) :
    ∀ b ∈ bf.export_bytes, b < 256 := by
  intro b hb
  simp only [BloomFilter.export_bytes, encodeTokens, List.mem_flatMap, List.mem_append,
    List.mem_map, List.mem_singleton] at hb
  obtain ⟨t, ht, hcase⟩ := hb
  rcases hcase with ⟨x, hx, rfl⟩ | rfl
  · exact Nat.succ_lt_succ (h t ht x hx)
  · omega

/-- Serializing one entry to its snapshot record and deserializing it
reproduces the entry. -/
theorem loadEntry_roundtrip (e : Entry) (h : validEntry e) :
    loadEntry
      { url := e.url, title := e.title, timestamp_ms := e.timestamp_ms,
        hash_value := hexEncode e.hash_value,
        bloom_filter := hexEncode e.bloom_filter.export_bytes } = e := by
  obtain ⟨h1, h2⟩ := h
  simp only [loadEntry, hexDecode_hexEncode e.hash_value h1,
    hexDecode_hexEncode _ (export_bytes_lt e.bloom_filter h2)]
  have : BloomFilter.import_bytes e.bloom_filter.export_bytes = e.bloom_filter := by
    simp [BloomFilter.import_bytes, BloomFilter.export_bytes, decodeTokens_encodeTokens]
  rw [this]

/-- Concrete instantiation of the external collaborators used to evaluate
the theorems on closed inputs: byte-code base64/UTF-8, identity digest,
and an OCR stub reading `"Hello World hello"` from any image. -/
def demoExternals : Externals :=
  { b64decode := fun s => s.toList.map Char.toNat,
    sha3_256 := fun bs => bs,
    image_to_string := fun _ => "Hello World hello",
    str_encode := fun s => s.toList.map Char.toNat,
    english_stop_words := [] }

/-- Externals whose OCR output consists entirely of stopwords. -/
def demoStopExternals : Externals :=
  { demoExternals with
    image_to_string := fun _ => "The THE the",
    english_stop_words := ["the"] }

/-- A stored entry whose filter holds the tokens `"hello"` and `"world"`
(UTF-8 bytes) and whose content hash is the demo digest of `"x"`. -/
def demoEntry : Entry :=
  { url := "https://a.example", title := "A", timestamp_ms := 3,
    hash_value := [120],
    bloom_filter := BloomFilter.from_values_2
      [[104, 101, 108, 108, 111], [119, 111, 114, 108, 100]] }

/-- An Add request whose image bytes decode (under `demoExternals`) to the
already-stored digest of `demoEntry`. -/
def demoAddRequest : AddRequestMessage :=
  { request_id := 1, base64_img_data := "x", url := "https://b.example",
    title := "B", timestamp_ms := 5 }

/-- Claim C1: the spec says a frame with malformed JSON, a missing `type`
field, an unknown `type` value, or wrong/missing fields for its type is
reported as a protocol error, dropped, and the loop continues, never
terminating the process. The code has no exception handler around
`from_bytes` inside `run_listener`, so each such frame raises an uncaught
Python exception: on the frame `{"type": "bogus", "request_id": 1}` the
listener terminates immediately with the `ValueError`, regardless of the
store state and of any well-formed frames still queued behind it, which
are never processed. -/
theorem protocol_error_terminates_listener :
    from_bytes none = .error .jsonDecodeError
    ∧ from_bytes (some (.obj [("request_id", .num 1)])) = .error (.keyError "type")
    ∧ from_bytes (some (.obj [("type", .str "bogus"), ("request_id", .num 1)])) =
        .error (.valueError (.str "bogus"))
    ∧ from_bytes (some (.obj [("type", .str "add"), ("request_id", .num 1)])) = .error .typeError
    ∧ ∀ (ext : Externals) (s : List Entry) (rest : List (Option Json)),
        runListener ext s
            (some (.obj [("type", .str "bogus"), ("request_id", .num 1)]) :: rest) =
          .error (.valueError (.str "bogus")) := by
  refine ⟨rfl, rfl, rfl, rfl, ?_⟩
  intro ext s rest
  rfl

/-- Claim C2 counterexample: a request payload carrying exactly the §3
schema field names (`requestId`, `base64ImgData`, `timestampMs`) does not
decode to an Add request — the dataclass call rejects the unexpected
keyword arguments with a `TypeError`. -/
theorem camel_schema_payload_rejected :
    from_bytes (some (.obj [("type", .str "add"), ("requestId", .num 1),
      ("base64ImgData", .str "AA=="), ("url", .str "https://a.example"),
      ("title", .str "A"), ("timestampMs", .num 0)])) = .error .typeError := rfl

/-- Claim C2 as amended: the wire field names are the snake_case dataclass
names. An Add payload with exactly the fields `type:"add"`, `request_id`,
`base64_img_data`, `url`, `title`, `timestamp_ms` decodes to the Add
request (likewise `type:"query"`, `request_id`, `query` for Query), and
every emitted QueryResponse is encoded with the fields `request_id` and
`entries`, each entry with `screenshot_src`, `url`, `title`,
`timestamp_ms`. -/
theorem wire_snake_case_schema :
    (∀ rid b64 u t ts : Json,
      from_bytes (some (.obj [("type", .str "add"), ("request_id", rid),
          ("base64_img_data", b64), ("url", u), ("title", t), ("timestamp_ms", ts)])) =
        .ok (.add rid b64 u t ts))
    ∧ (∀ rid q : Json,
      from_bytes (some (.obj [("type", .str "query"), ("request_id", rid), ("query", q)])) =
        .ok (.query rid q))
    ∧ (∀ m : QueryResponseMessage,
        encodeQueryResponse m =
          .obj [("request_id", .num m.request_id),
                ("entries", .arr (m.entries.map encodeQueryResponseEntry))])
    ∧ (∀ e : QueryResponseEntry,
        encodeQueryResponseEntry e =
          .obj [("screenshot_src", .str e.screenshot_src), ("url", .str e.url),
                ("title", .str e.title), ("timestamp_ms", .num e.timestamp_ms)]) :=
  ⟨fun _ _ _ _ _ => rfl, fun _ _ => rfl, fun _ => rfl, fun _ => rfl⟩

/-- Claim C3: an Add request whose image content hash is already in the
store is a no-op — store unchanged, no screenshot file written, no filter
built, no response — and the content hashes in the store stay pairwise
distinct across every step of the loop. -/
theorem duplicate_add_noop_and_hash_unique (ext : Externals) (s : List Entry)
    (m : AddRequestMessage) (req : RequestMessage)
    (hmem : ext.sha3_256 (ext.b64decode m.base64_img_data) ∈ s.map Entry.hash_value)
    (hnodup : (s.map Entry.hash_value).Nodup) :
    step ext s (.add m) = ⟨s, [], []⟩
    ∧ ((step ext s req).store.map Entry.hash_value).Nodup := by
  constructor
  · have hc : s.any (fun e => e.hash_value == ext.sha3_256 (ext.b64decode m.base64_img_data)) =
        true := (any_hash_eq s _).mpr hmem
    simp [step, handleAdd, hc]
  · cases req with
    | query m' => simpa [step] using hnodup
    | add m' =>
      simp only [step, handleAdd]
      by_cases hdup :
          s.any (fun e => e.hash_value == ext.sha3_256 (ext.b64decode m'.base64_img_data)) = true
      · simpa [hdup] using hnodup
      · by_cases hempty :
            ((addTokens ext (ext.image_to_string (ext.b64decode m'.base64_img_data))).map
              ext.str_encode).isEmpty = true
        · simpa [hdup, hempty] using hnodup
        · have hfresh :
              ext.sha3_256 (ext.b64decode m'.base64_img_data) ∉ s.map Entry.hash_value :=
            fun hmem' => hdup ((any_hash_eq s _).mpr hmem')
          simp [hdup, hempty, List.nodup_append, hnodup, hfresh]

/-- Claim C3 witness: adding the demo image a second time leaves the
single-entry demo store untouched with its hash set still duplicate-free. -/
theorem duplicate_add_noop_and_hash_unique_witness :
    step demoExternals [demoEntry] (.add demoAddRequest) = ⟨[demoEntry], [], []⟩
    ∧ ((step demoExternals [demoEntry] (.add demoAddRequest)).store.map
        Entry.hash_value).Nodup :=
  duplicate_add_noop_and_hash_unique demoExternals [demoEntry] demoAddRequest
    (.add demoAddRequest) (by decide) (by decide)

/-- Claim C4: an Add request whose extracted text tokenizes (split on
whitespace, lowercase, deduplicate, remove stopwords) to the empty set is
never stored and writes no screenshot file, whatever the store contains. -/
theorem empty_token_add_rejected (ext : Externals) (s : List Entry)
    (m : AddRequestMessage)
    (hempty : addTokens ext (ext.image_to_string (ext.b64decode m.base64_img_data)) = []) :
    step ext s (.add m) = ⟨s, [], []⟩ := by
  simp [step, handleAdd, hempty]

/-- Claim C4 witness: OCR output consisting solely of the stopword `the`
is rejected on an empty store (a fresh content hash). -/
theorem empty_token_add_rejected_witness :
    step demoStopExternals [] (.add demoAddRequest) = ⟨[], [], []⟩ :=
  empty_token_add_rejected demoStopExternals [] demoAddRequest (by decide)

/-- Claim C5: an `OSError` while reading the snapshot at startup (missing
or unreadable file) is caught: the store starts empty, a warning is
logged, and the process proceeds into the session loop on that empty
store. -/
theorem missing_snapshot_yields_empty_store :
    ∀ (err : String) (ext : Externals) (frames : List (Option Json)),
      startup (.error err) = ([], [LogLevel.warning])
      ∧ mainRun ext (.error err) frames = (runListener ext [] frames, [LogLevel.warning]) :=
  fun _ _ _ => ⟨rfl, rfl⟩

/-- Claim C6: the Query branch tokenizes the query by splitting on
whitespace, lowercasing and deduplicating as a set — with no stopword
filtering (`queryTokens` never consults the stopword list) — and emits
one response record per (entry, matching query token) pair, so a
single-entry store yields as many records as the entry's filter matches
distinct query tokens: an entry matching two distinct tokens appears
twice. -/
theorem query_match_per_entry_token_pair (ext : Externals) (s : List Entry)
    (m : QueryRequestMessage) :
    (handleQuery ext s m).entries =
      (matchedPairs ext s m.query).map (fun p => queryResponseEntryOf p.1)
    ∧ queryTokens m.query = ((splitWords m.query).map lowerString).dedup
    ∧ (queryTokens m.query).Nodup
    ∧ (∀ entry : Entry,
        (handleQuery ext [entry] m).entries.length =
          ((queryTokens m.query).filter
            (fun w => entry.bloom_filter.contains_token (ext.str_encode w))).length)
    ∧ (handleQuery demoExternals [demoEntry] ⟨7, "hello world"⟩).entries.length = 2 := by
  refine ⟨handleQuery_eq_matchedPairs ext s m, rfl, List.nodup_dedup _, ?_, by decide⟩
  intro entry
  simp [handleQuery, filterMap_guard]

/-- Claim C7: saving the store to its snapshot and loading the snapshot
back reproduces the store exactly (hence the same content hashes, the
same url/title/timestamp per hash, and filters answering `contains`
identically), for every store whose entries carry genuine bytes and
pairwise-distinct hashes (the invariant of claim C3). -/
theorem snapshot_round_trip (s : List Entry)
    (hvalid : ∀ e ∈ s, validEntry e)
    (hnodup : (s.map Entry.hash_value).Nodup) :
    loadStore (save_hash_to_entry s) = s := by
  have hmap : (save_hash_to_entry s).map loadEntry = s := by
    rw [save_hash_to_entry, List.map_map]
    have : ∀ e ∈ s,
        (loadEntry ∘ fun e =>
          ({ url := e.url, title := e.title, timestamp_ms := e.timestamp_ms,
             hash_value := hexEncode e.hash_value,
             bloom_filter := hexEncode e.bloom_filter.export_bytes } : JsonEntry)) e = id e :=
      fun e he => loadEntry_roundtrip e (hvalid e he)
    rw [List.map_congr_left this, List.map_id]
  rw [loadStore, ← List.foldl_map, hmap]
  exact foldl_dictInsert s [] (by simpa using hnodup)

/-- Claim C7 witness: the single-entry demo store survives the snapshot
round-trip unchanged. -/
theorem snapshot_round_trip_witness :
    loadStore (save_hash_to_entry [demoEntry]) = [demoEntry] :=
  snapshot_round_trip [demoEntry] (by decide) (by decide)

/-- Claim C8: an Add request writes no response message, and a Query
request writes exactly one QueryResponse, whose `request_id` is the
caller-supplied one echoed verbatim. -/
theorem add_no_response_query_one_response (ext : Externals) (s : List Entry) :
    (∀ m : AddRequestMessage, (step ext s (.add m)).responses = [])
    ∧ ∀ m : QueryRequestMessage,
        (step ext s (.query m)).responses = [handleQuery ext s m]
        ∧ (handleQuery ext s m).request_id = m.request_id :=
  ⟨fun _ => rfl, fun _ => ⟨rfl, rfl⟩⟩

/-- Claim C9: query matching is monotonic in the deduplicated query token
set — every matched (entry, token) pair of a query is matched by any
query whose token set contains the first one's — and the response list is
exactly the per-pair record list, so no previously matched pair's record
disappears when distinct tokens are added. -/
theorem query_match_monotonic (ext : Externals) (s t : List Entry) (q1 q2 : String)
    (m : QueryRequestMessage) (p : Entry × String)
    (hsub : ∀ w ∈ queryTokens q1, w ∈ queryTokens q2)
    (hp : p ∈ matchedPairs ext s q1) :
    p ∈ matchedPairs ext s q2
    ∧ (handleQuery ext t m).entries =
        (matchedPairs ext t m.query).map (fun p' => queryResponseEntryOf p'.1) := by
  refine ⟨?_, handleQuery_eq_matchedPairs ext t m⟩
  simp only [matchedPairs, List.mem_flatMap, List.mem_map, List.mem_filter] at hp ⊢
  obtain ⟨entry, hentry, w, ⟨hw, hcond⟩, rfl⟩ := hp
  exact ⟨entry, hentry, w, ⟨hsub w hw, hcond⟩, rfl⟩

/-- Claim C9 witness: the pair matched for the query `"hello"` on the
demo store is still matched for the superset query `"hello world"`. -/
theorem query_match_monotonic_witness :
    (demoEntry, "hello") ∈ matchedPairs demoExternals [demoEntry] "hello world"
    ∧ (handleQuery demoExternals [demoEntry] ⟨7, "hello"⟩).entries =
        (matchedPairs demoExternals [demoEntry] "hello").map
          (fun p' => queryResponseEntryOf p'.1) :=
  query_match_monotonic demoExternals [demoEntry] [demoEntry] "hello" "hello world"
    ⟨7, "hello"⟩ (demoEntry, "hello") (by decide) (by decide)

/-- Claim C10: handling a Query request leaves the Entry Store untouched —
the store value (hence every hash, url, title, timestamp and filter of
every entry) after the step is the one before it — and writes no files. -/
theorem query_preserves_store (ext : Externals) (s : List Entry)
    (m : QueryRequestMessage) :
    (step ext s (.query m)).store = s
    ∧ (step ext s (.query m)).files_written = []
    ∧ (step ext s (.query m)).store.map Entry.hash_value = s.map Entry.hash_value :=
  ⟨rfl, rfl, rfl⟩
